import Mathlib

/-!
Verification development for the batch command generator of the
"Automating raster data processing" lesson repository.

The generator lives in the notebook cell that builds a shell script of
`gdalwarp` clipping commands:

* `FileList = glob.glob(os.path.join(dir, pattern))` enumerates input files,
* `outputfile = inputfile[:-4] + "_clip.tif"` derives the output path,
* `command += "gdalwarp -te %s %s %s %s %s %s \n" % (xmin, ymin, xmax, ymax,
  inputfile, outputfile)` renders one command per file, and
* `f.write(command)` writes the accumulated script once to
  `ClipTurkufromLandsat.sh`.

Python strings are embedded as `List Char`; Python exceptions become the
`Condition` error type carried by `Except`.
-/

/-- Python strings are embedded as lists of characters. -/
abbrev Str := List Char

/-- Coerce a Lean string literal to the `List Char` embedding. -/
def str (s : String) : Str := s.data

/-- Failure conditions.  `NotFound`, `MissingParameter`,
`UnresolvedPlaceholder` and `PathCollision` are the spec's error taxonomy;
`MissingParameter` models Python's `TypeError: not enough arguments for
format string`, `NotAllArgumentsConverted` models `TypeError: not all
arguments converted during string formatting`, `IncompleteFormat` models
`ValueError: incomplete format`, and `UnsupportedConversion` marks a
conversion other than the `%s` fragment used by the notebook. -/
inductive Condition where
  | NotFound
  | MissingParameter
  | UnresolvedPlaceholder
  | PathCollision
  | NotAllArgumentsConverted
  | IncompleteFormat
  | UnsupportedConversion
deriving DecidableEq, Repr

/-- Split a character list at every occurrence of `sep`; the result always
has one more segment than there are separators (so a trailing separator
yields a trailing empty segment). -/
def splitOnChar (sep : Char) : Str → List Str
  | [] => [[]]
  | c :: rest =>
    if c = sep then [] :: splitOnChar sep rest
    else
      match splitOnChar sep rest with
      | [] => [[c]]
      | s :: ss => (c :: s) :: ss

/-- Split file content into lines the way Python's `str.splitlines` does
for content whose only line terminator is `\n`: split at every newline and
drop the final segment when it is empty. -/
def readLines (s : Str) : List Str :=
  let parts := splitOnChar '\n' s
  if parts.getLast? = some [] then parts.dropLast else parts

/-- Base name of a path: the component after the last slash, as
`posixpath.basename`. -/
def basename (p : Str) : Str := (splitOnChar '/' p).getLastD []

/-- A name is hidden when it starts with a dot; `glob` skips such names
unless the pattern itself starts with a dot. -/
def isHidden : Str → Bool
  | '.' :: _ => true
  | _ => false

/-- Helper for the `*` wildcard: try the rest of the pattern against every
suffix of the string. -/
def globMatchAux (m : Str → Bool) : Str → Bool
  | [] => m []
  | c :: cs => m (c :: cs) || globMatchAux m cs

/-- Glob-style name matching for the pattern fragment the notebook uses
(`fnmatch` with the `*` and `?` wildcards; literal characters match
case-sensitively). -/
def globMatch (p : Str) : Str → Bool :=
  match p with
  | [] => fun s => s.isEmpty
  | '*' :: ps => globMatchAux (globMatch ps)
  | '?' :: ps => fun s =>
      match s with
      | [] => false
      | _ :: cs => globMatch ps cs
  | c :: ps => fun s =>
      match s with
      | [] => false
      | d :: cs => c == d && globMatch ps cs

/-- `posixpath.join` on two components, as used by
`os.path.join(directory, name)`. -/
def osPathJoin (a b : Str) : Str :=
  if b.head? = some '/' then b
  else if a = [] ∨ a.getLast? = some '/' then a ++ b
  else a ++ '/' :: b

/-- The file system model: each directory that exists is listed with the
names it contains, in directory-listing order. -/
abbrev FileSystem := List (Str × List Str)

/-- Look a directory up in the file system model. -/
def lookupDir (fs : FileSystem) (d : Str) : Option (List Str) :=
  match fs with
  | [] => none
  | (name, files) :: rest => if name = d then some files else lookupDir rest d

/-- The names `glob` selects from a directory listing: hidden names are
skipped unless the pattern is itself hidden, and the rest are kept exactly
when they match the pattern. -/
def globSelect (pattern : Str) (names : List Str) : List Str :=
  (if isHidden pattern then names
   else names.filter (fun n => !isHidden n)).filter (fun n => globMatch pattern n)

/-- Embeds `glob.glob(os.path.join(directory, pattern))`: an empty result
when the directory does not exist, otherwise the selected names joined onto
the directory.  `glob` never raises for a missing directory. -/
def globGlob (fs : FileSystem) (dir pattern : Str) : List Str :=
  match lookupDir fs dir with
  | none => []
  | some names => (globSelect pattern names).map (osPathJoin dir)

/-- Follows the spec's words (the `enumerate` operation of the Batch
Command Generator), for comparison with the source's `glob.glob`
enumeration: list the files of `dir` whose names match `pattern`, fail with
a `NotFound` condition when the directory does not exist, and return the
empty sequence (not an error) when nothing matches. -/
def enumerateSpec (fs : FileSystem) (dir pattern : Str) :
    Except Condition (List Str) :=
  match lookupDir fs dir with
  | none => .error .NotFound
  | some names =>
      .ok ((names.filter (fun n => globMatch pattern n)).map (osPathJoin dir))

/-- Equality of `Except` results is decidable when it is on both sides. -/
def exceptDecEq {ε α : Type} [DecidableEq ε] [DecidableEq α] :
    DecidableEq (Except ε α)
  | .ok a, .ok b =>
    if h : a = b then isTrue (by subst h; rfl)
    else isFalse (fun hh => h (Except.ok.inj hh))
  | .ok _, .error _ => isFalse (fun hh => Except.noConfusion hh)
  | .error _, .ok _ => isFalse (fun hh => Except.noConfusion hh)
  | .error e, .error f =>
    if h : e = f then isTrue (by subst h; rfl)
    else isFalse (fun hh => h (Except.error.inj hh))

instance {ε α : Type} [DecidableEq ε] [DecidableEq α] :
    DecidableEq (Except ε α) := exceptDecEq

/-- Python `%`-formatting restricted to the fragment the notebook uses:
`%s` consumes the next value, `%%` is a literal percent sign, every other
character stands for itself.  Running out of values at a `%s` is the
`MissingParameter` condition; values left over at the end of the template
are `NotAllArgumentsConverted`; a trailing lone `%` is `IncompleteFormat`
and any other conversion character is `UnsupportedConversion`. -/
def renderChars : Str → List Str → Except Condition Str
  | [], [] => .ok []
  | [], _ :: _ => .error .NotAllArgumentsConverted
  | c :: rest, vs =>
    if c = '%' then
      match rest, vs with
      | 's' :: rest2, v :: vs2 => (renderChars rest2 vs2).map (fun r => v ++ r)
      | 's' :: _, [] => .error .MissingParameter
      | '%' :: rest2, vs2 => (renderChars rest2 vs2).map (fun r => '%' :: r)
      | [], _ => .error .IncompleteFormat
      | _ :: _, _ => .error .UnsupportedConversion
    else (renderChars rest vs).map (fun r => c :: r)

/-- The spec's `renderCommand(template, substitutions)`: embeds the
notebook's `template % (v1, ..., vk)` with every value already converted
to its string form (as `%s` does via `str()`). -/
def renderCommand (template : Str) (subs : List Str) : Except Condition Str :=
  renderChars template subs

/-- A template is well formed when every percent sign starts `%s` or `%%`. -/
def wfTemplate : Str → Bool
  | [] => true
  | c :: rest =>
    if c = '%' then
      match rest with
      | 's' :: rest2 => wfTemplate rest2
      | '%' :: rest2 => wfTemplate rest2
      | _ => false
    else wfTemplate rest

/-- Number of `%s` placeholders in a template. -/
def countPlaceholders : Str → Nat
  | [] => 0
  | c :: rest =>
    if c = '%' then
      match rest with
      | 's' :: rest2 => countPlaceholders rest2 + 1
      | '%' :: rest2 => countPlaceholders rest2
      | _ => 0
    else countPlaceholders rest

/-- String form of a Python integer, as `%s` produces for an `int`. -/
def intStr (i : Int) : Str := (toString i).data

/-- The spec's `deriveOutputPath`, embedding the notebook line
`outputfile = inputfile[:-4] + "_clip.tif"`: Python's `s[:-4]` keeps all
but the last four characters (everything shorter than four characters
slices to the empty string). -/
def deriveOutputPath (inputfile : Str) : Str :=
  inputfile.take (inputfile.length - 4) ++ str "_clip.tif"

/-- The command template of the notebook's gdalwarp loop. -/
def gdalwarpTemplate : Str := str "gdalwarp -te %s %s %s %s %s %s \n"

/-- One iteration of the notebook loop: derive the output path and render
the gdalwarp template with the clipping extent, the input file and the
derived output file. -/
def renderGdalwarp (xmin ymin xmax ymax : Int) (inputfile : Str) :
    Except Condition Str :=
  let outputfile := deriveOutputPath inputfile
  renderCommand gdalwarpTemplate
    [intStr xmin, intStr ymin, intStr xmax, intStr ymax, inputfile, outputfile]

/-- The expected rendered text of one gdalwarp command, spelled out. -/
def gdalwarpRendered (xmin ymin xmax ymax : Int) (inputfile : Str) : Str :=
  str "gdalwarp -te " ++ intStr xmin ++ str " " ++ intStr ymin ++ str " " ++
    intStr xmax ++ str " " ++ intStr ymax ++ str " " ++ inputfile ++ str " " ++
    deriveOutputPath inputfile ++ str " \n"

/-- Embeds the accumulation loop starting from the current value of
`command`: `for fp in FileList: command += render(fp)`, where a rendering
failure raises out of the loop. -/
def buildScriptFrom (render : Str → Except Condition Str) (acc : Str) :
    List Str → Except Condition Str
  | [] => .ok acc
  | fp :: rest =>
    match render fp with
    | .ok c => buildScriptFrom render (acc ++ c) rest
    | .error e => .error e

/-- The notebook's script construction: `command = ""` followed by the
accumulation loop over the enumerated files. -/
def buildScript (render : Str → Except Condition Str) (files : List Str) :
    Except Condition Str :=
  buildScriptFrom render [] files

/-- Render every file's command separately, failing on the first failure;
the per-line view of the Generated Script. -/
def renderAll (render : Str → Except Condition Str) :
    List Str → Except Condition (List Str)
  | [] => .ok []
  | fp :: rest =>
    match render fp with
    | .ok c => (renderAll render rest).map (fun cs => c :: cs)
    | .error e => .error e

/-- Concatenation of the rendered commands. -/
def joinAll (ls : List Str) : Str := ls.foldr (fun c acc => c ++ acc) []

/-- The script file name of the notebook (`cmd_file`). -/
def cmd_file : Str := str "ClipTurkufromLandsat.sh"

/-- The whole batch-generation run: enumerate with `glob`, build the
command string, and name the script file to write it to. -/
def runClipBatch (fs : FileSystem) (dir pattern : Str)
    (xmin ymin xmax ymax : Int) : Except Condition (Str × Str) :=
  let FileList := globGlob fs dir pattern
  (buildScript (renderGdalwarp xmin ymin xmax ymax) FileList).map
    (fun command => (cmd_file, command))

/-- The file writes a run performs: the single `f.write(command)` when the
run reaches it, nothing when the run raises first. -/
def writeScriptFile : Except Condition Str → List (Str × Str)
  | .ok s => [(cmd_file, s)]
  | .error _ => []

/-- Observable side effects of a run. -/
inductive Effect where
  | writeFile : Str → Str → Effect
  | execCommand : Str → Effect
  | netAccess : Str → Effect
deriving DecidableEq, Repr

/-- The effect trace of a batch-generation run: one file write when the run
completes, nothing otherwise.  The cell contains no `os.system` call and no
network access. -/
def effectsOf : Except Condition (Str × Str) → List Effect
  | .ok (p, c) => [.writeFile p c]
  | .error _ => []

/-- The effect trace of the notebook's batch-generation cell. -/
def runClipBatchEffects (fs : FileSystem) (dir pattern : Str)
    (xmin ymin xmax ymax : Int) : List Effect :=
  effectsOf (runClipBatch fs dir pattern xmin ymin xmax ymax)

/-- The spec's `writeScript(path, commands)`: serialize the commands one
line each, each line terminated by the configured line ending (here the
POSIX `\n`, matching the notebook's `.sh` output). -/
def writeScript (commands : List Str) : Str :=
  joinAll (commands.map (fun c => c ++ ['\n']))

/-- Sanity evaluation: substitution into a two-placeholder template. -/
theorem sanity_renderCommand : renderCommand (str "a %s b %s")
    [str "X", str "Y"] = .ok (str "a X b Y") := by decide

/-- Sanity evaluation: the output rule on a `.tif` name. -/
theorem sanity_deriveOutputPath :
    deriveOutputPath (str "band3.tif") = str "band3_clip.tif" := by decide

/-- Sanity evaluation: one rendered gdalwarp command. -/
theorem sanity_renderGdalwarp : renderGdalwarp 0 0 0 0 (str "band3.tif") =
    .ok (str "gdalwarp -te 0 0 0 0 band3.tif band3_clip.tif \n") := by decide

/-- Rendering the gdalwarp template never fails and produces the expected
command text: six `%s` placeholders meet exactly six values. -/
theorem renderGdalwarp_eq (a b c d : Int) (f : Str) :
    renderGdalwarp a b c d f = .ok (gdalwarpRendered a b c d f) := by
  simp [renderGdalwarp, renderCommand, gdalwarpTemplate, gdalwarpRendered,
    renderChars, str, List.append_assoc, Except.map]

/-- Unfolding: a literal template character is emitted unchanged. -/
theorem renderChars_cons_ne (c : Char) (rest : Str) (vs : List Str)
    (hc : ¬c = '%') :
    renderChars (c :: rest) vs = (renderChars rest vs).map (fun r => c :: r) := by
  rw [renderChars.eq_def]
  simp only [if_neg hc]

/-- Unfolding: a well-formed cons template starting with a literal. -/
theorem wfTemplate_cons_ne (c : Char) (rest : Str) (hc : ¬c = '%') :
    wfTemplate (c :: rest) = wfTemplate rest := by
  rw [wfTemplate.eq_def]
  simp only [if_neg hc]

/-- Unfolding: a literal character adds no placeholder. -/
theorem countPlaceholders_cons_ne (c : Char) (rest : Str) (hc : ¬c = '%') :
    countPlaceholders (c :: rest) = countPlaceholders rest := by
  rw [countPlaceholders.eq_def]
  simp only [if_neg hc]

/-- Fewer provided values than `%s` placeholders make a well-formed
template render fail with the `MissingParameter` condition, exactly as
Python's `%` raises `TypeError: not enough arguments for format string`. -/
theorem renderChars_missing (t : Str) (subs : List Str)
    (h1 : wfTemplate t = true) (h2 : subs.length < countPlaceholders t) :
    renderChars t subs = .error .MissingParameter := by
  induction t, subs using renderChars.induct
  all_goals try simp_all [renderChars, wfTemplate, countPlaceholders, Except.map]
  case case7 vs head tail hnp hcons hnil =>
    by_cases hs : head = 's'
    · subst hs
      cases vs with
      | nil => exact ((hnil rfl) rfl).elim
      | cons v vs2 => exact ((hcons v vs2 rfl) rfl).elim
    · rw [wfTemplate.eq_def] at h1
      simp [hs, hnp] at h1
  case case8 c rest vs hc ih =>
    rw [wfTemplate_cons_ne c rest hc] at h1
    rw [countPlaceholders_cons_ne c rest hc] at h2
    rw [renderChars_cons_ne c rest vs hc, ih h1 h2]
    rfl

/-- A rendering failure for any file of the batch makes the whole
accumulation loop raise, whatever prefix was already accumulated. -/
theorem buildScriptFrom_error_of_mem (render : Str → Except Condition Str)
    (files : List Str) (acc f : Str) (e : Condition)
    (hf : f ∈ files) (he : render f = .error e) :
    ∃ e2, buildScriptFrom render acc files = .error e2 := by
  induction files generalizing acc with
  | nil => cases hf
  | cons g rest ih =>
    cases hg : render g with
    | ok c =>
      rcases List.mem_cons.mp hf with h | h
      · subst h; simp [he] at hg
      · simpa [buildScriptFrom, hg] using ih (acc ++ c) h
    | error e2 => exact ⟨e2, by simp [buildScriptFrom, hg]⟩

/-- A successful accumulation loop rendered every file, in order, and its
result is the accumulator followed by the concatenation of all rendered
commands. -/
theorem buildScriptFrom_ok (render : Str → Except Condition Str)
    (files : List Str) :
    ∀ acc s, buildScriptFrom render acc files = .ok s →
      ∃ lines, renderAll render files = .ok lines ∧ s = acc ++ joinAll lines := by
  induction files with
  | nil =>
    intro acc s h
    simp [buildScriptFrom] at h
    exact ⟨[], rfl, by simp [joinAll, h]⟩
  | cons g rest ih =>
    intro acc s h
    cases hg : render g with
    | error e => simp [buildScriptFrom, hg] at h
    | ok c =>
      simp [buildScriptFrom, hg] at h
      obtain ⟨lines, hl, hs⟩ := ih (acc ++ c) s h
      exact ⟨c :: lines, by simp [renderAll, hg, hl, Except.map],
        by simp [joinAll, hs, List.append_assoc]⟩

/-- Rendering the whole batch with the gdalwarp template succeeds and
yields exactly one rendered command per enumerated file, in order. -/
theorem renderAll_gdalwarp (a b c d : Int) (files : List Str) :
    renderAll (renderGdalwarp a b c d) files =
      .ok (files.map (gdalwarpRendered a b c d)) := by
  induction files with
  | nil => rfl
  | cons g rest ih => simp [renderAll, renderGdalwarp_eq, ih, Except.map]

/-- The gdalwarp accumulation loop never raises: its result is the
accumulator followed by every file's rendered command. -/
theorem buildScriptFrom_gdalwarp (a b c d : Int) (files : List Str) :
    ∀ acc, buildScriptFrom (renderGdalwarp a b c d) acc files =
      .ok (acc ++ joinAll (files.map (gdalwarpRendered a b c d))) := by
  induction files with
  | nil => intro acc; simp [buildScriptFrom, joinAll]
  | cons g rest ih =>
    intro acc
    simp [buildScriptFrom, renderGdalwarp_eq, ih, joinAll, List.append_assoc]

/-- The notebook's command string for a batch of files, in closed form. -/
theorem buildScript_gdalwarp (a b c d : Int) (files : List Str) :
    buildScript (renderGdalwarp a b c d) files =
      .ok (joinAll (files.map (gdalwarpRendered a b c d))) := by
  simpa using buildScriptFrom_gdalwarp a b c d files []

/-- Splitting after a separator-free segment followed by a separator peels
off exactly that segment. -/
theorem splitOnChar_append (sep : Char) (c : Str) (h : sep ∉ c) (rest : Str) :
    splitOnChar sep (c ++ sep :: rest) = c :: splitOnChar sep rest := by
  induction c with
  | nil => simp [splitOnChar]
  | cons x xs ih =>
    have hx : x ≠ sep := fun hh => h (hh ▸ List.mem_cons_self x xs)
    have hxs : sep ∉ xs := fun hm => h (List.mem_cons_of_mem x hm)
    simp [splitOnChar, hx, ih hxs]

/-- Splitting the serialized script at newlines yields the commands plus
the empty segment after the final newline. -/
theorem splitOnChar_writeScript (cmds : List Str)
    (h : ∀ c ∈ cmds, '\n' ∉ c) :
    splitOnChar '\n' (writeScript cmds) = cmds ++ [[]] := by
  induction cmds with
  | nil => rfl
  | cons c cs ih =>
    have hc : '\n' ∉ c := h c (List.mem_cons_self c cs)
    have hcs : ∀ x ∈ cs, '\n' ∉ x := fun x hx => h x (List.mem_cons_of_mem c hx)
    have hw : writeScript (c :: cs) = c ++ '\n' :: writeScript cs := by
      simp [writeScript, joinAll, List.append_assoc]
    rw [hw, splitOnChar_append _ _ hc, ih hcs]
    rfl

/-- Round trip of the script serialization for newline-free commands. -/
theorem readLines_writeScript (cmds : List Str)
    (h : ∀ c ∈ cmds, '\n' ∉ c) :
    readLines (writeScript cmds) = cmds := by
  simp [readLines, splitOnChar_writeScript cmds h, List.getLast?_concat,
    List.dropLast_concat]

/-- Enumeration against a missing directory yields the empty list. -/
theorem globGlob_none (fs : FileSystem) (dir pattern : Str)
    (h : lookupDir fs dir = none) : globGlob fs dir pattern = [] := by
  simp [globGlob, h]

/-- Enumeration against an existing directory joins the selected names
onto the directory. -/
theorem globGlob_some (fs : FileSystem) (dir pattern : Str)
    (names : List Str) (h : lookupDir fs dir = some names) :
    globGlob fs dir pattern = (globSelect pattern names).map (osPathJoin dir) := by
  simp [globGlob, h]

/-- A selected name comes from the directory listing and matches the
pattern. -/
theorem mem_globSelect {pattern n : Str} {names : List Str}
    (h : n ∈ globSelect pattern names) :
    n ∈ names ∧ globMatch pattern n = true := by
  by_cases hp : isHidden pattern <;> simp_all [globSelect, List.mem_filter]

/-- C1: For the batch whose enumerated input files are `band3.tif`,
`band4.tif` and `band5.tif` (pattern `*.tif`, output rule appending
`_clip` before the extension), the generator produces one gdalwarp
command per input, in enumeration order, with the original file path as
the input argument and `band3_clip.tif`, `band4_clip.tif`,
`band5_clip.tif` respectively as the output argument. -/
theorem c1_band_batch :
    globGlob [(str "", [str "band3.tif", str "band4.tif", str "band5.tif"])]
        (str "") (str "*.tif") =
      [str "band3.tif", str "band4.tif", str "band5.tif"] ∧
    renderAll (renderGdalwarp 0 0 0 0)
        [str "band3.tif", str "band4.tif", str "band5.tif"] =
      .ok [str "gdalwarp -te 0 0 0 0 band3.tif band3_clip.tif \n",
        str "gdalwarp -te 0 0 0 0 band4.tif band4_clip.tif \n",
        str "gdalwarp -te 0 0 0 0 band5.tif band5_clip.tif \n"] ∧
    runClipBatch [(str "", [str "band3.tif", str "band4.tif", str "band5.tif"])]
        (str "") (str "*.tif") 0 0 0 0 =
      .ok (cmd_file,
        str "gdalwarp -te 0 0 0 0 band3.tif band3_clip.tif \ngdalwarp -te 0 0 0 0 band4.tif band4_clip.tif \ngdalwarp -te 0 0 0 0 band5.tif band5_clip.tif \n") := by
  decide

/-- C2: If the rendering of any command of the batch fails, the whole
batch aborts before any script file is written (no partial script on disk,
and the failure surfaces to the caller instead of the file being silently
skipped); and whenever a script is written, it is the fully accumulated
in-memory concatenation of every file's rendered command, written in one
flush. -/
theorem c2_failure_aborts (render : Str → Except Condition Str)
    (files : List Str) (f : Str) (e : Condition)
    (hf : f ∈ files) (he : render f = .error e) :
    writeScriptFile (buildScript render files) = [] ∧
    (∃ e2, buildScript render files = .error e2) ∧
    (∀ render2 files2 s, buildScript render2 files2 = .ok s →
      writeScriptFile (buildScript render2 files2) = [(cmd_file, s)] ∧
      ∃ lines, renderAll render2 files2 = .ok lines ∧ s = joinAll lines) := by
  obtain ⟨e2, h⟩ := buildScriptFrom_error_of_mem render files [] f e hf he
  have hb : buildScript render files = .error e2 := h
  refine ⟨by rw [hb]; rfl, ⟨e2, hb⟩, fun render2 files2 s hs => ⟨by rw [hs]; rfl, ?_⟩⟩
  obtain ⟨lines, hl, hj⟩ := buildScriptFrom_ok render2 files2 [] s hs
  exact ⟨lines, hl, by simpa using hj⟩

/-- C2 witness: a batch whose single file fails to render writes nothing. -/
theorem c2_failure_aborts_witness :
    writeScriptFile (buildScript (fun _ => Except.error Condition.MissingParameter)
      [str "x.tif"]) = [] :=
  (c2_failure_aborts (fun _ => Except.error Condition.MissingParameter)
    [str "x.tif"] (str "x.tif") Condition.MissingParameter
    (List.mem_singleton.mpr rfl) rfl).1

/-- C3 counterexample: two distinct input paths with distinct base names
whose extensions are not the four characters `.tif` derive the same output
path, so `deriveOutputPath` is not injective over every input set with
pairwise distinct base names. -/
theorem c3_counterexample :
    basename (str "band.tiff") ≠ basename (str "band.tifx") ∧
    str "band.tiff" ≠ str "band.tifx" ∧
    deriveOutputPath (str "band.tiff") = deriveOutputPath (str "band.tifx") := by
  decide

/-- C3 (amended): `deriveOutputPath` is injective over every input set
whose paths end in `.tif` and have pairwise distinct base names: for two
such distinct paths the derived output paths are distinct. -/
theorem c3_tif_injective (p q : Str)
    (hp : ∃ u, p = u ++ str ".tif") (hq : ∃ v, q = v ++ str ".tif")
    (hbn : basename p ≠ basename q) :
    deriveOutputPath p ≠ deriveOutputPath q := by
  obtain ⟨u, rfl⟩ := hp
  obtain ⟨v, rfl⟩ := hq
  have du : ∀ w : Str, deriveOutputPath (w ++ str ".tif") = w ++ str "_clip.tif" := by
    intro w
    unfold deriveOutputPath
    rw [List.length_append]
    simp [str]
  intro hd
  rw [du u, du v] at hd
  exact hbn (by rw [List.append_cancel_right hd])

/-- C3 witness: the amended injectivity applied to `band3.tif` and
`band4.tif`. -/
theorem c3_tif_injective_witness :
    deriveOutputPath (str "band3.tif") ≠ deriveOutputPath (str "band4.tif") :=
  c3_tif_injective (str "band3.tif") (str "band4.tif")
    ⟨str "band3", by decide⟩ ⟨str "band4", by decide⟩ (by decide)

/-- C4 counterexample: the source enumerates with `glob.glob`, which
returns the empty sequence (a success) for a directory that does not
exist; it never fails with a NotFound condition, diverging from the claim
(witnessed against the spec-worded `enumerateSpec`). -/
theorem c4_counterexample :
    lookupDir [] (str "/home/geo/LandsatData") = none ∧
    globGlob [] (str "/home/geo/LandsatData") (str "*band*.tif") = [] ∧
    enumerateSpec [] (str "/home/geo/LandsatData") (str "*band*.tif") =
      .error .NotFound ∧
    Except.ok (globGlob [] (str "/home/geo/LandsatData") (str "*band*.tif")) ≠
      enumerateSpec [] (str "/home/geo/LandsatData") (str "*band*.tif") := by
  decide

/-- C4 (amended): enumeration never fails: it returns the empty sequence
(not an error) both when the directory does not exist and when the
directory exists but no file name matches the pattern. -/
theorem c4_enumerate_empty (fs : FileSystem) (dir pattern : Str) :
    (lookupDir fs dir = none → globGlob fs dir pattern = []) ∧
    (∀ names, lookupDir fs dir = some names → globSelect pattern names = [] →
      globGlob fs dir pattern = []) := by
  refine ⟨fun h => globGlob_none fs dir pattern h, fun names h hsel => ?_⟩
  rw [globGlob_some fs dir pattern names h, hsel]
  rfl

/-- C4 witness: the amended behaviour at a missing directory and at an
existing directory with no match. -/
theorem c4_enumerate_empty_witness :
    globGlob [] (str "d") (str "*.tif") = [] ∧
    globGlob [(str "d", [str "a.txt"])] (str "d") (str "*.tif") = [] :=
  ⟨(c4_enumerate_empty [] (str "d") (str "*.tif")).1 (by decide),
   (c4_enumerate_empty [(str "d", [str "a.txt"])] (str "d") (str "*.tif")).2
     [str "a.txt"] (by decide) (by decide)⟩

/-- C5: rendering a well-formed template with fewer provided values than
`%s` placeholders fails with the `MissingParameter` condition, and a batch
containing any such failing command writes no script file at all. -/
theorem c5_missing_parameter (t : Str) (subs : List Str)
    (h1 : wfTemplate t = true) (h2 : subs.length < countPlaceholders t) :
    renderCommand t subs = .error .MissingParameter ∧
    (∀ files f, f ∈ files →
      writeScriptFile (buildScript (fun _ => renderCommand t subs) files) = []) := by
  have hr : renderCommand t subs = .error .MissingParameter :=
    renderChars_missing t subs h1 h2
  refine ⟨hr, fun files f hf => ?_⟩
  obtain ⟨e2, h⟩ := buildScriptFrom_error_of_mem
    (fun _ => renderCommand t subs) files [] f .MissingParameter hf hr
  have hb : buildScript (fun _ => renderCommand t subs) files = .error e2 := h
  rw [hb]
  rfl

/-- C5 witness: a two-placeholder template with a single value. -/
theorem c5_missing_parameter_witness :
    renderCommand (str "%s %s") [str "a"] = .error .MissingParameter ∧
    writeScriptFile (buildScript (fun _ => renderCommand (str "%s %s") [str "a"])
      [str "x.tif"]) = [] :=
  ⟨(c5_missing_parameter (str "%s %s") [str "a"] (by decide) (by decide)).1,
   (c5_missing_parameter (str "%s %s") [str "a"] (by decide) (by decide)).2
     [str "x.tif"] (str "x.tif") (List.mem_singleton.mpr rfl)⟩

/-- C6 counterexample: a rendered command string can contain a newline
(the rendering of `%s` with a newline-bearing value), and for such a
command the write/read-back round trip does not return the command
unchanged: the claim fails as universally stated. -/
theorem c6_counterexample :
    renderCommand (str "%s") [str "a\nb"] = .ok (str "a\nb") ∧
    readLines (writeScript [str "a\nb"]) ≠ [str "a\nb"] := by
  decide

/-- C6 (amended): for every ordered sequence of rendered command strings
none of which contains a newline character, writing the script and then
reading the file back, splitting it into lines, yields exactly the same
command strings, one per line, in the same order. -/
theorem c6_roundtrip (cmds : List Str) (h : ∀ c ∈ cmds, '\n' ∉ c) :
    readLines (writeScript cmds) = cmds :=
  readLines_writeScript cmds h

/-- C6 witness: the round trip on two concrete newline-free commands. -/
theorem c6_roundtrip_witness :
    readLines (writeScript
      [str "gdalwarp -te 0 0 0 0 band3.tif band3_clip.tif ", str "x"]) =
      [str "gdalwarp -te 0 0 0 0 band3.tif band3_clip.tif ", str "x"] :=
  c6_roundtrip _ (by decide)

/-- C7: when the pattern matches no files in an existing directory, the
run succeeds and produces a Generated Script containing zero commands,
rather than failing with an error. -/
theorem c7_empty_match (fs : FileSystem) (dir pattern : Str)
    (names : List Str) (a b c d : Int)
    (h1 : lookupDir fs dir = some names)
    (h2 : globSelect pattern names = []) :
    ∃ out, runClipBatch fs dir pattern a b c d = .ok out ∧
      out.1 = cmd_file ∧ readLines out.2 = [] := by
  have hg : globGlob fs dir pattern = [] := by
    rw [globGlob_some fs dir pattern names h1, h2]
    rfl
  refine ⟨(cmd_file, []), ?_, rfl, by decide⟩
  simp [runClipBatch, hg, buildScript, buildScriptFrom, Except.map]

/-- C7 witness: a directory holding only `a.txt` matched against
`*.tif`. -/
theorem c7_empty_match_witness :
    ∃ out, runClipBatch [(str "d", [str "a.txt"])] (str "d") (str "*.tif")
      0 0 0 0 = .ok out ∧ out.1 = cmd_file ∧ readLines out.2 = [] :=
  c7_empty_match [(str "d", [str "a.txt"])] (str "d") (str "*.tif")
    [str "a.txt"] 0 0 0 0 (by decide) (by decide)

/-- C8: the only side effect of a batch-generation run is writing the
script file: its effect trace is exactly one write of the script file, and
contains no command execution and no network access. -/
theorem c8_only_write_effect (fs : FileSystem) (dir pattern : Str)
    (a b c d : Int) :
    ∃ content, runClipBatchEffects fs dir pattern a b c d =
      [Effect.writeFile cmd_file content] ∧
    ∀ e ∈ runClipBatchEffects fs dir pattern a b c d,
      (∀ x, e ≠ Effect.execCommand x) ∧ (∀ u, e ≠ Effect.netAccess u) := by
  have hb := buildScript_gdalwarp a b c d (globGlob fs dir pattern)
  refine ⟨joinAll ((globGlob fs dir pattern).map (gdalwarpRendered a b c d)),
    ?_, ?_⟩
  · simp [runClipBatchEffects, runClipBatch, effectsOf, hb, Except.map]
  · intro e he
    simp [runClipBatchEffects, runClipBatch, effectsOf, hb, Except.map] at he
    simp [he]

/-- C9: for every existing directory, enumeration returns exactly as many
file references as there are names the pattern selects, each reference
being a selected (pattern-matching) name joined onto the directory, and
the Generated Script renders exactly one command line per file reference,
in the same order. -/
theorem c9_one_to_one (fs : FileSystem) (dir pattern : Str)
    (names : List Str) (a b c d : Int)
    (h : lookupDir fs dir = some names) :
    (globGlob fs dir pattern).length = (globSelect pattern names).length ∧
    (∀ p ∈ globGlob fs dir pattern, ∃ n, n ∈ names ∧
      globMatch pattern n = true ∧ p = osPathJoin dir n) ∧
    renderAll (renderGdalwarp a b c d) (globGlob fs dir pattern) =
      .ok ((globGlob fs dir pattern).map (gdalwarpRendered a b c d)) ∧
    ((globGlob fs dir pattern).map (gdalwarpRendered a b c d)).length =
      (globGlob fs dir pattern).length := by
  refine ⟨?_, ?_, renderAll_gdalwarp a b c d _, List.length_map _ _⟩
  · rw [globGlob_some fs dir pattern names h]
    exact List.length_map _ _
  · intro p hp
    rw [globGlob_some fs dir pattern names h] at hp
    obtain ⟨n, hn, rfl⟩ := List.mem_map.mp hp
    obtain ⟨hn1, hn2⟩ := mem_globSelect hn
    exact ⟨n, hn1, hn2, rfl⟩

/-- C9 witness: the one-to-one correspondence on the three-band
directory. -/
theorem c9_one_to_one_witness :
    (globGlob [(str "", [str "band3.tif", str "band4.tif", str "band5.tif"])]
      (str "") (str "*.tif")).length =
      (globSelect (str "*.tif")
        [str "band3.tif", str "band4.tif", str "band5.tif"]).length :=
  (c9_one_to_one [(str "", [str "band3.tif", str "band4.tif", str "band5.tif"])]
    (str "") (str "*.tif") [str "band3.tif", str "band4.tif", str "band5.tif"]
    0 0 0 0 (by decide)).1

/-- C10: the derived output path is the input with its last four
characters removed and `_clip.tif` appended, regardless of the actual
extension; consequently any two inputs agreeing on all but their last four
characters derive the same output path, and an input of at most four
characters derives exactly `_clip.tif`. -/
theorem c10_chop_four :
    (∀ u v : Str, v.length = 4 →
      deriveOutputPath (u ++ v) = u ++ str "_clip.tif") ∧
    (∀ p q : Str, p.take (p.length - 4) = q.take (q.length - 4) →
      deriveOutputPath p = deriveOutputPath q) ∧
    (∀ p : Str, p.length ≤ 4 → deriveOutputPath p = str "_clip.tif") := by
  refine ⟨fun u v hv => ?_, fun p q h => ?_, fun p hp => ?_⟩
  · unfold deriveOutputPath
    rw [List.length_append, hv, Nat.add_sub_cancel]
    exact congrArg (fun t => t ++ str "_clip.tif") (List.take_left u v)
  · unfold deriveOutputPath
    rw [h]
  · unfold deriveOutputPath
    rw [Nat.sub_eq_zero_of_le hp, List.take_zero, List.nil_append]

/-- C10 witness: the three consequences at concrete inputs. -/
theorem c10_chop_four_witness :
    deriveOutputPath (str "band3" ++ str ".tif") = str "band3" ++ str "_clip.tif" ∧
    deriveOutputPath (str "band.tiff") = deriveOutputPath (str "band.tifx") ∧
    deriveOutputPath (str "ab") = str "_clip.tif" :=
  ⟨c10_chop_four.1 (str "band3") (str ".tif") (by decide),
   c10_chop_four.2.1 (str "band.tiff") (str "band.tifx") (by decide),
   c10_chop_four.2.2 (str "ab") (by decide)⟩

/-- C8 witness: the single-write effect trace on a one-band directory. -/
theorem c8_only_write_effect_witness :
    ∃ content, runClipBatchEffects [(str "", [str "band3.tif"])] (str "")
      (str "*.tif") 0 0 0 0 = [Effect.writeFile cmd_file content] ∧
    ∀ e ∈ runClipBatchEffects [(str "", [str "band3.tif"])] (str "")
      (str "*.tif") 0 0 0 0,
      (∀ x, e ≠ Effect.execCommand x) ∧ (∀ u, e ≠ Effect.netAccess u) :=
  c8_only_write_effect [(str "", [str "band3.tif"])] (str "") (str "*.tif")
    0 0 0 0
